import Mathlib

/-!
Verification development for the sprint-planner stage orchestration and
finalization engine.

The definitions below are shallow embeddings of the Python source:
  * `src/src/states/global_idea_state.py`      — `GlobalIdeaState`, `TeamMember`
  * `src/src/graphs/workflow.py`               — `Workflow.update_global_idea_state`,
                                                 `Workflow.execute`
  * `src/src/handlers/message_storage.py`      — `save_user_message` /
                                                 `save_agent_message` retry loops,
                                                 `determine_current_stage`
  * `src/src/handlers/stage_completion.py`     — `StageCompletion.complete_stage`,
                                                 `_compute_week_start_date`,
                                                 `save_sprint_weeks_to_db`,
                                                 `_generate_and_save_narrative_sections_background`
  * `src/src/models/chat_transfer_model.py`    — `Event` (pydantic validation)

Conventions used throughout:
  * Python/JSON values are embedded as `PyValue`; a Python `dict` is an
    association list `List (String × PyValue)` whose denotation is given by
    first-occurrence lookup (real dicts have unique keys, which theorems
    assume via `Nodup` of the key list where it matters).
  * pydantic validation failure (`ValidationError`) and other raised
    exceptions are modelled by `Option`/`Except` results.
  * datetimes are rational numbers of seconds since the Unix epoch (UTC);
    `date()` is flooring to a multiple of 86400 seconds.
-/

namespace SprintPlanner

/-- Embedded Python/JSON value. -/
inductive PyValue : Type where
  | pnone : PyValue
  | pstr (s : String) : PyValue
  | pint (n : Int) : PyValue
  | pbool (b : Bool) : PyValue
  | plist (xs : List PyValue) : PyValue
  | pdict (kvs : List (String × PyValue)) : PyValue

/-- Python truthiness test `if v is not None` used by the merge's filter. -/
def PyValue.isNotNone : PyValue → Bool
  | .pnone => false
  | _ => true

/-- `TeamMember` from `src/src/states/team_profile_agent_state.py`:
seven `Optional[str]` fields, all defaulting to `None`. -/
structure TeamMember : Type where
  id : Option String := none
  name : Option String := none
  email : Option String := none
  profession : Option String := none
  role : Option String := none
  description : Option String := none
  domain_expertise : Option String := none
deriving DecidableEq, Repr

/-- The field names of `GlobalIdeaState`
(`src/src/states/global_idea_state.py`), one constructor per pydantic
field, in source order. -/
inductive GField : Type where
  | idea_title | problem_statement | target_user | idea_summary_short
  | idea_long_description | core_features_must_have
  | optional_features_good_to_have | is_product_needed | product_similar_to
  | team | execution_capacity
  | primary_goal_for_4_weeks | monetization_model | launch_channel
  | KPI_for_success
  | market_size_assumption | primary_competitors | competitive_advantage
  | user_pain_points_from_research | validation_status
  | budget_range | tools_they_already_use | time_constraints
  | assets_available
  | working_style | preferred_sprint_format | need_AI_assistance_for
  | risk_tolerance
  | tech_required | preferred_frontend | preferred_backend
  | preferred_database | ai_models | cloud | integrations_needed
  | data_needed_for_MVP | constraints
deriving DecidableEq, Fintype, Repr

/-- The pydantic type annotation of a field: `Optional[str]`,
`Optional[List[str]]`, or `Optional[List[TeamMember]]`. -/
inductive FTy : Type where
  | ostr | olistStr | oteam
deriving DecidableEq, Repr

/-- Lean type denoted by a field type annotation. -/
def FTy.denote : FTy → Type
  | .ostr => Option String
  | .olistStr => Option (List String)
  | .oteam => Option (List TeamMember)

/-- Decidable equality at each field type (kept as a plain recursive
definition so that it evaluates inside `decide`). -/
def FTy.decEqDenote : (t : FTy) → DecidableEq t.denote
  | .ostr => inferInstanceAs (DecidableEq (Option String))
  | .olistStr => inferInstanceAs (DecidableEq (Option (List String)))
  | .oteam => inferInstanceAs (DecidableEq (Option (List TeamMember)))

instance (t : FTy) : DecidableEq t.denote := t.decEqDenote

/-- The `None` default of each field type. -/
def FTy.defaultVal : (t : FTy) → t.denote
  | .ostr => none
  | .olistStr => none
  | .oteam => none

/-- The annotation of each `GlobalIdeaState` field, read off the source. -/
def GField.ty : GField → FTy
  | .idea_title => .ostr
  | .problem_statement => .ostr
  | .target_user => .ostr
  | .idea_summary_short => .ostr
  | .idea_long_description => .ostr
  | .core_features_must_have => .olistStr
  | .optional_features_good_to_have => .olistStr
  | .is_product_needed => .ostr
  | .product_similar_to => .ostr
  | .team => .oteam
  | .execution_capacity => .ostr
  | .primary_goal_for_4_weeks => .ostr
  | .monetization_model => .ostr
  | .launch_channel => .olistStr
  | .KPI_for_success => .olistStr
  | .market_size_assumption => .ostr
  | .primary_competitors => .olistStr
  | .competitive_advantage => .ostr
  | .user_pain_points_from_research => .olistStr
  | .validation_status => .ostr
  | .budget_range => .ostr
  | .tools_they_already_use => .olistStr
  | .time_constraints => .ostr
  | .assets_available => .olistStr
  | .working_style => .ostr
  | .preferred_sprint_format => .ostr
  | .need_AI_assistance_for => .olistStr
  | .risk_tolerance => .ostr
  | .tech_required => .olistStr
  | .preferred_frontend => .ostr
  | .preferred_backend => .ostr
  | .preferred_database => .ostr
  | .ai_models => .ostr
  | .cloud => .ostr
  | .integrations_needed => .olistStr
  | .data_needed_for_MVP => .olistStr
  | .constraints => .olistStr

/-- The Python attribute name of each field. -/
def GField.fname : GField → String
  | .idea_title => "idea_title"
  | .problem_statement => "problem_statement"
  | .target_user => "target_user"
  | .idea_summary_short => "idea_summary_short"
  | .idea_long_description => "idea_long_description"
  | .core_features_must_have => "core_features_must_have"
  | .optional_features_good_to_have => "optional_features_good_to_have"
  | .is_product_needed => "is_product_needed"
  | .product_similar_to => "product_similar_to"
  | .team => "team"
  | .execution_capacity => "execution_capacity"
  | .primary_goal_for_4_weeks => "primary_goal_for_4_weeks"
  | .monetization_model => "monetization_model"
  | .launch_channel => "launch_channel"
  | .KPI_for_success => "KPI_for_success"
  | .market_size_assumption => "market_size_assumption"
  | .primary_competitors => "primary_competitors"
  | .competitive_advantage => "competitive_advantage"
  | .user_pain_points_from_research => "user_pain_points_from_research"
  | .validation_status => "validation_status"
  | .budget_range => "budget_range"
  | .tools_they_already_use => "tools_they_already_use"
  | .time_constraints => "time_constraints"
  | .assets_available => "assets_available"
  | .working_style => "working_style"
  | .preferred_sprint_format => "preferred_sprint_format"
  | .need_AI_assistance_for => "need_AI_assistance_for"
  | .risk_tolerance => "risk_tolerance"
  | .tech_required => "tech_required"
  | .preferred_frontend => "preferred_frontend"
  | .preferred_backend => "preferred_backend"
  | .preferred_database => "preferred_database"
  | .ai_models => "ai_models"
  | .cloud => "cloud"
  | .integrations_needed => "integrations_needed"
  | .data_needed_for_MVP => "data_needed_for_MVP"
  | .constraints => "constraints"

/-- `GlobalIdeaState` as a record: each pydantic field holds a value of its
annotated type.  (A pydantic model is exactly such a typed record.) -/
def GlobalIdeaState : Type := (f : GField) → f.ty.denote

instance : DecidableEq GlobalIdeaState :=
  Fintype.decidablePiFintype

/-- The default `GlobalIdeaState()`: every field is `None`. -/
def GlobalIdeaState.default : GlobalIdeaState := fun f => f.ty.defaultVal

/-- Encode an `Optional[str]` value back to a Python value (`model_dump`). -/
def encodeOptStr : Option String → PyValue
  | none => .pnone
  | some s => .pstr s

/-- `model_dump` of a `TeamMember`. -/
def TeamMember.dump (m : TeamMember) : PyValue :=
  .pdict [("id", encodeOptStr m.id), ("name", encodeOptStr m.name),
          ("email", encodeOptStr m.email),
          ("profession", encodeOptStr m.profession),
          ("role", encodeOptStr m.role),
          ("description", encodeOptStr m.description),
          ("domain_expertise", encodeOptStr m.domain_expertise)]

/-- Encode a field value back to a Python value (`model_dump`). -/
def encodeVal : (t : FTy) → t.denote → PyValue
  | .ostr, v => encodeOptStr v
  | .olistStr, v =>
    match v with
    | none => .pnone
    | some xs => .plist (xs.map PyValue.pstr)
  | .oteam, v =>
    match v with
    | none => .pnone
    | some ms => .plist (ms.map TeamMember.dump)

/-- pydantic validation of an `Optional[str]` value: `None` and strings are
accepted, everything else raises `ValidationError` (modelled as `none`). -/
def decodeOptStr : PyValue → Option (Option String)
  | .pnone => some none
  | .pstr s => some (some s)
  | _ => none

/-- pydantic validation of a single `List[str]` element. -/
def decodeStr : PyValue → Option String
  | .pstr s => some s
  | _ => none

/-- pydantic validation of a `TeamMember` from a Python dict: unknown keys
are ignored, missing keys fall back to the `None` default, present keys
must validate as `Optional[str]`.  Non-dict input is rejected. -/
def decodeTeamMember : PyValue → Option TeamMember
  | .pdict kvs => do
    let get := fun (k : String) => (kvs.lookup k).getD PyValue.pnone
    let id ← decodeOptStr (get "id")
    let name ← decodeOptStr (get "name")
    let email ← decodeOptStr (get "email")
    let profession ← decodeOptStr (get "profession")
    let role ← decodeOptStr (get "role")
    let description ← decodeOptStr (get "description")
    let domain_expertise ← decodeOptStr (get "domain_expertise")
    pure ⟨id, name, email, profession, role, description, domain_expertise⟩
  | _ => none

/-- pydantic validation of a field value of annotation `t`. -/
def decodeVal : (t : FTy) → PyValue → Option t.denote
  | .ostr, v => decodeOptStr v
  | .olistStr, .pnone => some none
  | .olistStr, .plist xs => (xs.mapM decodeStr).map some
  | .olistStr, _ => none
  | .oteam, .pnone => some none
  | .oteam, .plist xs => (xs.mapM decodeTeamMember).map some
  | .oteam, _ => none

/-- List of all fields (used to resolve a dict key to a field). -/
def allGFields : List GField :=
  [.idea_title, .problem_statement, .target_user, .idea_summary_short,
   .idea_long_description, .core_features_must_have,
   .optional_features_good_to_have, .is_product_needed, .product_similar_to,
   .team, .execution_capacity,
   .primary_goal_for_4_weeks, .monetization_model, .launch_channel,
   .KPI_for_success,
   .market_size_assumption, .primary_competitors, .competitive_advantage,
   .user_pain_points_from_research, .validation_status,
   .budget_range, .tools_they_already_use, .time_constraints,
   .assets_available,
   .working_style, .preferred_sprint_format, .need_AI_assistance_for,
   .risk_tolerance,
   .tech_required, .preferred_frontend, .preferred_backend,
   .preferred_database, .ai_models, .cloud, .integrations_needed,
   .data_needed_for_MVP, .constraints]

/-- Resolve a dict key to the schema field of that name, if any. -/
def fieldOfName (k : String) : Option GField :=
  allGFields.find? (fun f => f.fname = k)

/-- `model_dump()` of a state, as a key-indexed dict (the dump contains
exactly the schema's field names as keys). -/
def state_dump (s : GlobalIdeaState) (k : String) : Option PyValue :=
  (fieldOfName k).map (fun f => encodeVal f.ty (s f))

/-- `GlobalIdeaState.model_validate(d, strict=False)` over a key-indexed
dict `d`: every schema field is read from `d` (an absent key uses the
field's `None` default) and validated against its annotation; any keys of
`d` outside the schema are ignored (pydantic's default `extra="ignore"`).
Validation failure of any field raises `ValidationError` (`none`). -/
def model_validate (d : String → Option PyValue) : Option GlobalIdeaState :=
  if h : ∀ f : GField, (decodeVal f.ty ((d f.fname).getD PyValue.pnone)).isSome
  then some (fun f => (decodeVal f.ty ((d f.fname).getD PyValue.pnone)).get (h f))
  else none

/-- `Workflow.update_global_idea_state` (`src/src/graphs/workflow.py`,
lines 512-542), the merge operation:

    updates      = {k: v for k, v in structured_response.items() if v is not None}
    merged_state = {**current_state_dict, **updates}
    self.global_idea_state = GlobalIdeaState.model_validate(merged_state, strict=False)

`none` models the re-raised `ValidationError` (fatal to the caller — the
method has no retry).  The same construction is used verbatim by
`update_global_state_from_messages` in `src/src/handlers/message_storage.py`. -/
def update_global_idea_state (s : GlobalIdeaState)
    (structured_response : List (String × PyValue)) : Option GlobalIdeaState :=
  let updates := structured_response.filter (fun kv => kv.2.isNotNone)
  model_validate (fun k =>
    match updates.lookup k with
    | some v => some v
    | none => state_dump s k)

/-! ### Transcript messages and stage resolution
(`src/src/handlers/message_storage.py`) -/

/-- A persisted chat message as read back from the store
(`ChatMessageModel` / the dict rows built by `fetch_session_messages`).
`stage` is validated by `ChatMessageModel` to lie in 1..9.
`formatted_output` holds the parsed JSON of the stored string: `none` for
a missing payload; a non-`pdict` value stands for a payload that is not a
JSON object (including unparseable text). -/
structure Msg : Type where
  role : String
  stage : Int
  formatted_output : Option PyValue := none

/-- `parse_formatted_output`: returns the parsed dict, or `None` when the
payload is missing, unparseable, or not a dict. -/
def parse_formatted_output : Option PyValue → Option (List (String × PyValue))
  | some (.pdict kvs) => some kvs
  | _ => none

/-- The check `parsed_output and parsed_output.get("state") == "completed"`
from `determine_current_stage` (an empty dict is falsy, and then the
lookup on it returns `None` anyway, so both readings coincide). -/
def stateIsCompleted (fo : Option PyValue) : Bool :=
  match parse_formatted_output fo with
  | some kvs =>
    match kvs.lookup "state" with
    | some (.pstr s) => s == "completed"
    | _ => false
  | none => false

/-- `determine_current_stage` (`src/src/handlers/message_storage.py`,
lines 257-296): looks only at the last message; an empty transcript gives
stage 1; a stage-8 assistant entry gives 9 when its structured output is
`completed`, else 8; a stage-9 entry gives 10; otherwise the entry's own
stage tag. -/
def determine_current_stage (messages : List Msg) : Int :=
  match messages.getLast? with
  | none => 1
  | some m =>
    if m.stage = 8 ∧ m.role = "assistant" then
      if stateIsCompleted m.formatted_output then 9 else 8
    else if m.stage = 9 then 10
    else m.stage

/-! ### Persistence retry layer
(`save_user_message` / `save_agent_message` in
`src/src/handlers/message_storage.py`) -/

/-- Outcome of one `db.create_chat_message` call: success, a transient
connection error (`psycopg.OperationalError`, `psycopg.InterfaceError`,
`psycopg_pool.PoolTimeout`), or any other exception. -/
inductive DbOutcome : Type where
  | ok | transientErr | fatalErr
deriving DecidableEq

/-- Result of a retried save: whether it returned `True`, how many rows
were actually written, how many attempts ran, and the sleeps performed
(in seconds, in order). -/
structure SaveTrace : Type where
  success : Bool
  rows_written : Nat
  attempts : Nat
  delays : List ℚ
deriving DecidableEq

def max_retries : Nat := 3

def base_retry_delay : ℚ := 1/2

/-- The `for attempt in range(max_retries)` loop shared verbatim by
`save_user_message` and `save_agent_message`: a successful create returns
`True`; a transient error sleeps `base_retry_delay * 2 ** attempt +
random.uniform(0, 0.1)` and retries unless this was the last attempt; any
other exception breaks out without retrying.  A failed create writes no
row. -/
def attemptLoop (outcome : Nat → DbOutcome) (jitter : Nat → ℚ)
    (attempt : Nat) (delays : List ℚ) : SaveTrace :=
  if _h : attempt < max_retries then
    match outcome attempt with
    | .ok => ⟨true, 1, attempt + 1, delays⟩
    | .transientErr =>
      if attempt < max_retries - 1 then
        attemptLoop outcome jitter (attempt + 1)
          (delays ++ [base_retry_delay * 2 ^ attempt + jitter attempt])
      else ⟨false, 0, attempt + 1, delays⟩
    | .fatalErr => ⟨false, 0, attempt + 1, delays⟩
  else ⟨false, 0, attempt, delays⟩
termination_by max_retries - attempt

/-- `save_user_message(chat_request, db, stage)`: returns `False` without
any attempt when `db` is absent or the user message is empty. -/
def save_user_message (hasDb : Bool) (hasUserMessage : Bool)
    (outcome : Nat → DbOutcome) (jitter : Nat → ℚ) : SaveTrace :=
  if hasDb && hasUserMessage then attemptLoop outcome jitter 0 []
  else ⟨false, 0, 0, []⟩

/-- `save_agent_message(session_id, user_id, content, db, stage, ...)`:
identical retry structure, guarded on `db` and non-empty `content`. -/
def save_agent_message (hasDb : Bool) (hasContent : Bool)
    (outcome : Nat → DbOutcome) (jitter : Nat → ℚ) : SaveTrace :=
  if hasDb && hasContent then attemptLoop outcome jitter 0 []
  else ⟨false, 0, 0, []⟩

/-! ### Task schedule dates
(`src/src/handlers/stage_completion.py`, `_compute_week_start_date` and
`save_sprint_weeks_to_db`).  Datetimes are rationals (seconds since the
Unix epoch, UTC); `.date()` is the floor to whole days. -/

/-- `StageCompletion._compute_week_start_date(base_date, sprint_week,
today_completed)`: week start at 00:00 UTC; week 1 starts on
`base_date.date()` (or the next day when `today_completed`). -/
def compute_week_start_date (base_date : ℚ) (sprint_week : Int)
    (today_completed : Bool) : ℚ :=
  let anchor_date : Int := ⌊base_date / 86400⌋
  let anchor_date : Int := if today_completed then anchor_date + 1 else anchor_date
  let week_start_day : Int := anchor_date + (sprint_week - 1) * 7
  ((week_start_day * 86400 : Int) : ℚ)

/-- `SprintTask` (`src/src/states/agile_project_manager_agent_state.py`).
`timeline_days` is the fractional duration in days. -/
structure SprintTask : Type where
  title : String
  description : String
  priority : String
  timeline_days : ℚ
  assigneeId : String
  sub_tasks : Option (List String) := none

/-- `SprintWeek`: a week number with its tasks. -/
structure SprintWeek : Type where
  week : Int
  tasks : List SprintTask

/-- A task row as passed to `db.create_task`. -/
structure TaskRow : Type where
  key : String
  title : String
  sprint_week : Int
  tags : List String
  ai_description : String
  priority : String
  assignee_id : Option String
  reporter_id : Option String
  parent_task_id : Option String
  timeline_days : ℚ
  start_date : ℚ
  due_date : ℚ
deriving DecidableEq

/-- Context for `save_sprint_weeks_to_db`.  `createOk` tells whether the
`db.create_task` call for a given key succeeds (failures are logged and
skipped).  `rowId` is the id the store assigns to a created row.
`safe_uuid` models `safe_uuid_or_none`, which is imported from
`src.utils.utils` but missing from the source tree; per its uses and the
docstring ("guards invalid UUIDs") it maps a string to itself when it is
a valid UUID and to `None` otherwise, so it is kept abstract here. -/
structure SprintSaveCtx : Type where
  project_id : String
  reporter_id : Option String
  base_date : ℚ
  today_completed : Bool
  createOk : String → Bool
  rowId : String → String
  safe_uuid : String → Option String

/-- `project_prefix = project_id[:8].upper() if len(project_id) >= 8 else
project_id.upper()` (the name avoids ending in a reserved word). -/
def projectKeyHead (project_id : String) : String :=
  if project_id.length ≥ 8 then (String.take project_id 8).toUpper
  else project_id.toUpper

/-- Row key `f"{project_prefix}-SP-{task_counter}"`. -/
def taskKey (ctx : SprintSaveCtx) (counter : Nat) : String :=
  projectKeyHead ctx.project_id ++ "-SP-" ++ toString counter

/-- The inner `for sub_title in sub_tasks` loop: blank titles are skipped
without consuming a counter value; each kept sub-task becomes a child row
inheriting the parent's week, dates, priority and duration. -/
def saveSubTasks (ctx : SprintSaveCtx) (week : Int) (week_start : ℚ)
    (parent : SprintTask) (parent_id : Option String)
    (safe_assignee : Option String) (due : ℚ) :
    List String → Nat → List TaskRow × Nat
  | [], counter => ([], counter)
  | sub_title :: rest, counter =>
    if sub_title.trim = "" then
      saveSubTasks ctx week week_start parent parent_id safe_assignee due rest counter
    else
      let counter2 := counter + 1
      let key := taskKey ctx counter2
      let row : TaskRow :=
        { key := key, title := sub_title.trim, sprint_week := week,
          tags := ["subtask"],
          ai_description := "Subtask of " ++ parent.title ++ ": " ++ sub_title.trim,
          priority := parent.priority, assignee_id := safe_assignee,
          reporter_id := ctx.reporter_id.bind ctx.safe_uuid,
          parent_task_id := parent_id,
          timeline_days := parent.timeline_days,
          start_date := week_start, due_date := due }
      let here := if ctx.createOk key then [row] else []
      let rest2 :=
        saveSubTasks ctx week week_start parent parent_id safe_assignee due rest counter2
      (here ++ rest2.1, rest2.2)

/-- The `for task in sprint_week.tasks` loop: each task consumes a counter
value and becomes a parent row with `start_date = week_start` and
`due_date = week_start + timeline_days` days; when its creation fails the
task (and all its sub-tasks) is skipped. -/
def saveWeekTasks (ctx : SprintSaveCtx) (week : Int) (week_start : ℚ) :
    List SprintTask → Nat → List TaskRow × Nat
  | [], counter => ([], counter)
  | task :: rest, counter =>
    let counter2 := counter + 1
    let key := taskKey ctx counter2
    let duration := task.timeline_days
    let due := week_start + duration * 86400
    let safe_assignee := ctx.safe_uuid task.assigneeId
    let row : TaskRow :=
      { key := key, title := task.title, sprint_week := week, tags := [],
        ai_description := task.description, priority := task.priority,
        assignee_id := safe_assignee,
        reporter_id := ctx.reporter_id.bind ctx.safe_uuid,
        parent_task_id := none, timeline_days := duration,
        start_date := week_start, due_date := due }
    if ctx.createOk key then
      let parent_id := ctx.safe_uuid (ctx.rowId key)
      let subs :=
        saveSubTasks ctx week week_start task parent_id safe_assignee due
          (task.sub_tasks.getD []) counter2
      let more := saveWeekTasks ctx week week_start rest subs.2
      (row :: (subs.1 ++ more.1), more.2)
    else
      saveWeekTasks ctx week week_start rest counter2

/-- The outer `for sprint_week in sprint_weeks` loop. -/
def saveWeeks (ctx : SprintSaveCtx) : List SprintWeek → Nat → List TaskRow × Nat
  | [], counter => ([], counter)
  | w :: rest, counter =>
    let week_start := compute_week_start_date ctx.base_date w.week ctx.today_completed
    let rows := saveWeekTasks ctx w.week week_start w.tasks counter
    let more := saveWeeks ctx rest rows.2
    (rows.1 ++ more.1, more.2)

/-- `StageCompletion.save_sprint_weeks_to_db` (lines 163-281): returns the
rows created (`created_tasks`).  The `task_counter` starts at 0 and the
keys embed `task_counter` after its increment. -/
def save_sprint_weeks_to_db (ctx : SprintSaveCtx) (sprint_weeks : List SprintWeek) :
    List TaskRow :=
  (saveWeeks ctx sprint_weeks 0).1

/-! ### Background narrative job
(`_generate_and_save_narrative_sections_background` and
`_save_category_sections_to_db` in `src/src/handlers/stage_completion.py`) -/

/-- A generated narrative section (the dicts produced by the narrative
agent); `section_type` is the dict's `"type"` key and `name`/`content`
default to `""`/`0` as in the source's `.get` calls. -/
structure NarrativeSection : Type where
  category : String
  name : String
  section_type : String
  content : String
  position : Int
deriving DecidableEq

/-- A row written by `db.create_narrative_section`. -/
structure SectionRow : Type where
  project_id : String
  category : String
  name : String
  section_type : String
  content : String
  position : Int
deriving DecidableEq

/-- Outcome of `narrative_agent.generate_category_sections` for one
category: the generated sections, or a raised exception. -/
inductive GenOutcome : Type where
  | ok (sections : List NarrativeSection)
  | raise

/-- `_save_category_sections_to_db(project_id, sections, category)`:
walks the category's sections in order; a section whose `category` key
mismatches or whose name is falsy is counted as failed; each remaining
section is written immediately, and a failing write (`saveOk s = false`,
i.e. `db.create_narrative_section` raised) is caught, counted and
skipped.  Returns the store contents plus `(saved_count, failed_count)`. -/
def save_category_sections_to_db (db : List SectionRow) (project_id : String)
    (category : String) (saveOk : NarrativeSection → Bool) :
    List NarrativeSection → List SectionRow × Nat × Nat
  | [] => (db, 0, 0)
  | s :: rest =>
    if s.category ≠ category then
      let r := save_category_sections_to_db db project_id category saveOk rest
      (r.1, r.2.1, r.2.2 + 1)
    else if s.name = "" then
      let r := save_category_sections_to_db db project_id category saveOk rest
      (r.1, r.2.1, r.2.2 + 1)
    else if saveOk s then
      let row : SectionRow :=
        { project_id := project_id, category := category, name := s.name,
          section_type := s.section_type, content := s.content,
          position := s.position }
      let r := save_category_sections_to_db (db ++ [row]) project_id category saveOk rest
      (r.1, r.2.1 + 1, r.2.2)
    else
      let r := save_category_sections_to_db db project_id category saveOk rest
      (r.1, r.2.1, r.2.2 + 1)

/-- Result of the background narrative job. -/
structure JobResult : Type where
  db : List SectionRow
  total_saved : Nat
  total_failed : Nat
  timed_out : Bool
deriving DecidableEq

/-- The `for category_idx, (category, section_names) in enumerate(plan)`
loop of `_generate_and_save_narrative_sections_background`.  `idx` counts
iterations already started (it indexes the wall-clock reading `elapsed`
taken at the top of each iteration); `pos` is `category_position`.  A
generation exception is caught at category granularity: the category's
full section count is added to the failure tally, `category_position` is
not advanced (the `+=` sits after the `generate` call), and the loop
continues.  The 1-second `time.sleep` between categories has no modelled
effect. -/
def narrativeLoop (project_id : String) (gen : String → Int → GenOutcome)
    (saveOk : NarrativeSection → Bool) (elapsed : Nat → ℚ)
    (timeout_seconds : ℚ) :
    List (String × List String) → Nat → Int → List SectionRow → Nat → Nat →
    JobResult
  | [], _idx, _pos, db, sa, fa => ⟨db, sa, fa, false⟩
  | (category, section_names) :: rest, idx, pos, db, sa, fa =>
    if elapsed idx > timeout_seconds then ⟨db, sa, fa, true⟩
    else
      match gen category pos with
      | .raise =>
        narrativeLoop project_id gen saveOk elapsed timeout_seconds rest
          (idx + 1) pos db sa (fa + section_names.length)
      | .ok category_sections =>
        let pos2 := pos + section_names.length
        if category_sections.isEmpty then
          narrativeLoop project_id gen saveOk elapsed timeout_seconds rest
            (idx + 1) pos2 db sa (fa + section_names.length)
        else
          let r :=
            save_category_sections_to_db db project_id category saveOk
              category_sections
          narrativeLoop project_id gen saveOk elapsed timeout_seconds rest
            (idx + 1) pos2 r.1 (sa + r.2.1) (fa + r.2.2)

/-- `_generate_and_save_narrative_sections_background(project_id, state,
instruction, timeout_minutes)`: processes the fixed plan sequentially
against the store contents `db0`; its outer `try/except` swallows every
exception, so the job always returns a result to its caller. -/
def generate_and_save_narrative_sections_background (db0 : List SectionRow)
    (project_id : String) (plan : List (String × List String))
    (gen : String → Int → GenOutcome) (saveOk : NarrativeSection → Bool)
    (elapsed : Nat → ℚ) (timeout_minutes : ℚ) : JobResult :=
  narrativeLoop project_id gen saveOk elapsed (timeout_minutes * 60) plan 0 0 db0 0 0

/-- The fixed default plan `_default_narrative_plan()`: 8 categories with
their ordered section names. -/
def default_narrative_plan : List (String × List String) :=
  [("narrative",
    ["Executive Summary", "PR-Style Launch", "Customer FAQ",
     "Problem Statement", "Solution Overview", "Success Metrics"]),
   ("product",
    ["Product Vision", "User Personas", "Customer Problems",
     "Feature Breakdown (MVP)", "Success Criteria"]),
   ("engineering", ["Tech Stack", "System Architecture", "Testing Strategy"]),
   ("administrative", ["Company Structure", "Operational Rituals"]),
   ("people_hr", ["Hiring Plan", "Culture & Principles"]),
   ("gtm", ["Go-to-Market Strategy", "Positioning & Messaging"]),
   ("funding", ["Investment Narrative"]),
   ("tools", ["Tool Stack Overview", "Build vs Buy Decisions"])]

/-! ### Events and the finalization pipeline
(`Event` in `src/src/models/chat_transfer_model.py`;
`StageCompletion.complete_stage` in `src/src/handlers/stage_completion.py`) -/

/-- Exceptions raised by the modelled Python code. -/
inductive PyErr : Type where
  | attributeError (msg : String)
  | valueError (msg : String)
  | validationError (msg : String)
  | dbError (msg : String)
  | genError (msg : String)
deriving DecidableEq

/-- The `Literal` values of `Event.event_type` in
`src/src/models/chat_transfer_model.py` — note the list has no `"error"`
member. -/
def validEventTypes : List String :=
  ["project_created", "team_members_synced", "sources_updated",
   "sprint_plan_generated", "narrative_sections_started", "completed"]

/-- The `Literal` values of `Event.event_status` — note the list has no
`"failed"` member. -/
def validEventStatuses : List String := ["started", "completed"]

/-- The `Event` pydantic model: `event_type`, `event_status` and an
optional `project_id`. -/
structure Event : Type where
  event_type : String
  event_status : String
  project_id : Option String := none
deriving DecidableEq

/-- Constructing `Event(event_type=t, event_status=st, ...)`: pydantic
accepts the value only when both literals are in range, and otherwise
raises `ValidationError`; unknown keyword arguments such as `event_data`
are ignored (`extra="ignore"`), so they are not modelled. -/
def mkEvent (t st : String) (pid : Option String) : Except PyErr Event :=
  if t ∈ validEventTypes then
    if st ∈ validEventStatuses then
      .ok ⟨t, st, pid⟩
    else .error (.validationError ("event_status: " ++ st))
  else .error (.validationError ("event_type: " ++ t))

/-- Python truthiness of an optional string (`if user_id:`): falsy when
missing or empty. -/
def truthyOptStr : Option String → Bool
  | none => false
  | some s => s ≠ ""

/-- A user row as returned by `db.get_user` (only the fields
`complete_stage` reads). -/
structure LeadUser : Type where
  id : String
  clerk_id : String
deriving DecidableEq

/-- The database/uuid oracles `complete_stage` consults while resolving
the acting user.  `safe_uuid` again stands for the absent
`safe_uuid_or_none`. -/
structure UserDb : Type where
  get_user : String → Option LeadUser
  safe_uuid : String → Option String

/-- Field access `s.idea_title` on the state record. -/
def GlobalIdeaState.idea_title (s : GlobalIdeaState) : Option String :=
  s GField.idea_title

/-- A sample state whose only set field is `idea_title` (used by concrete
runs in the theorems below). -/
def stateWithTitle : GlobalIdeaState := fun f =>
  match f with
  | .idea_title => some "T"
  | g => g.ty.defaultVal

/-- Step 0 of `StageCompletion.complete_stage` (lines 740-805): resolve
the acting user and its database id.

The source intends the priority chain `user_id` →
`user_preferences.user_id` → get-or-create by `user_preferences.user_email`,
but `GlobalIdeaState` (see `src/src/states/global_idea_state.py`) declares
no `user_preferences` field, so when `user_id` is falsy the very first
fallback check `elif global_idea_state.user_preferences and ...` raises
`AttributeError` for every state — the chain after priority 1 is
unreachable.  When the id resolves but `get_user_from_db` finds no row,
the code attempts `Event(event_type="error", event_status="failed", ...)`,
whose construction itself raises `ValidationError` (see `mkEvent`). -/
def resolve_acting_user (user_id : Option String) (_state : GlobalIdeaState)
    (db : UserDb) : Except PyErr String :=
  if truthyOptStr user_id then
    let resolved_user_id := user_id.getD ""
    match db.get_user resolved_user_id with
    | none =>
      match mkEvent "error" "failed" none with
      | .ok _ => .error (.valueError ("Lead user not found in DB with clerk_id: " ++ resolved_user_id))
      | .error e => .error e
    | some lead_user =>
      match db.safe_uuid lead_user.id with
      | none => .error (.valueError "Lead user's DB id is invalid")
      | some lead_user_db_id => .ok lead_user_db_id
  else
    .error (.attributeError "'GlobalIdeaState' object has no attribute 'user_preferences'")

/-- Oracles for the fallible pipeline steps of `complete_stage`.
`project_id` is the id returned by `create_project`; `hasDocuments` is
whether the session has prior documents; the `Ok` flags tell whether
`create_project`, the document fetch, and
`sprint_planner_agent.generate_all_weeks_sprint` raise.  Team sync and
per-row task/document writes catch their own exceptions and are never
fatal. -/
structure CompleteStageCtx : Type where
  db : UserDb
  project_id : String
  hasDocuments : Bool
  createProjectOk : Bool
  docsFetchOk : Bool
  sprintGenOk : Bool

/-- `StageCompletion.complete_stage(global_idea_state, session_id,
user_id)` (lines 714-896) as the list of events it yields plus the
exception it raises, if any (the outer `except` re-raises after
logging). The narrative background job is only started — the pipeline
emits `narrative_sections_started/started` and no completion for it,
then the overall `completed` event. -/
def complete_stage (ctx : CompleteStageCtx) (state : GlobalIdeaState)
    (user_id : Option String) : List Event × Option PyErr :=
  match resolve_acting_user user_id state ctx.db with
  | .error e => ([], some e)
  | .ok _lead_user_db_id =>
    let es := [Event.mk "team_members_synced" "started" none,
               Event.mk "team_members_synced" "completed" none]
    if ¬ truthyOptStr state.idea_title then
      (es, some (.valueError "idea_title is required to create a project"))
    else
      let es := es ++ [Event.mk "project_created" "started" none]
      if ¬ ctx.createProjectOk then (es, some (.dbError "create_project failed"))
      else
        let es := es ++ [Event.mk "project_created" "completed" none]
        if ¬ ctx.docsFetchOk then (es, some (.dbError "get_documents_by_session_id failed"))
        else
          let es := es ++
            (if ctx.hasDocuments then
              [Event.mk "sources_updated" "started" none,
               Event.mk "sources_updated" "completed" none]
             else [])
          let es := es ++ [Event.mk "sprint_plan_generated" "started" none]
          if ¬ ctx.sprintGenOk then (es, some (.genError "generate_all_weeks_sprint failed"))
          else
            let es := es ++ [Event.mk "sprint_plan_generated" "completed" none,
                             Event.mk "narrative_sections_started" "started" none,
                             Event.mk "completed" "completed" (some ctx.project_id)]
            (es, none)

/-! ### Stage router / orchestrator
(`Workflow.execute` in `src/src/graphs/workflow.py`) -/

/-- What a stage agent invocation returns, after
`_process_agent_response`-level classification: an error flag (agent
error or empty structured response) and the structured response dict. -/
structure AgentResult : Type where
  error : Bool
  structured : Option (List (String × PyValue))

/-- `Workflow._process_agent_response`: gives back the structured response
dict, or `none` when the response carries an error or the structured
response is missing/empty (both falsy cases yield an error
`ChatResponse`). -/
def process_agent_response (r : AgentResult) : Option (List (String × PyValue)) :=
  if r.error then none
  else
    match r.structured with
    | none => none
    | some [] => none
    | some kvs => some kvs

/-- Python truthiness of the `follow_up_question` value obtained via
`structured_response.get("follow_up_question", "")`. -/
def pyTruthy : PyValue → Bool
  | .pnone => false
  | .pstr s => s ≠ ""
  | .pint n => n ≠ 0
  | .pbool b => b
  | .plist xs => ¬ xs.isEmpty
  | .pdict kvs => ¬ kvs.isEmpty

/-- Observable trace of one `Workflow.execute` call: the
`(connection_status, idea_state_stage)` of every yielded `ChatResponse`,
the number of `update_global_idea_state` calls, the number of greeting-only
auto-invocations of the next stage agent, and the
`(content-label, stage)` of every `save_agent_message` call. -/
structure TurnTrace : Type where
  responses : List (String × Int)
  merges : Nat
  chained_invokes : Nat
  saved : List (String × Int)

/-- `Workflow.execute(messages, stage, session_id, user_id, db,
user_preferences)` (lines 263-510).  `agents n` is what the stage-`n`
agent invocation returns; `state` is the current global idea state;
`cctx`/`user_id` feed the stage-9 `complete_stage` call.  Stage 9 streams
pipeline events and ends with `events_completed` (or, when the pipeline
raises, the generic error response built in the outer `except`).  For
stages 1-8: an `ongoing` agent answer yields one `active` response; a
`completed` answer merges the stage fields once, persists the sentinel
entry, and either signals stage 9 (`next_stage > 8`) or chains exactly one
greeting-only invocation of the next agent and returns its answer. -/
def workflow_execute (agents : Int → AgentResult) (cctx : CompleteStageCtx)
    (state : GlobalIdeaState) (user_id : Option String) (stage : Option Int)
    (messagesEmpty : Bool) : TurnTrace :=
  if stage = some 9 then
    let run := complete_stage cctx state user_id
    let streamed := run.1.map (fun _ => ("events_streaming", (9 : Int)))
    match run.2 with
    | some _ => ⟨streamed ++ [("error", 9)], 0, 0, []⟩
    | none =>
      ⟨streamed ++ [("events_completed", 9)], 0, 0,
       [("All stages completed. Project created successfully.", 9)]⟩
  else
    -- `if stage is None or not isinstance(stage, int) or stage < 1 or stage > 8`
    -- (a `None` stage makes the error response itself raise on
    -- `idea_state_stage=None`, landing in the outer `except` which
    -- falls back to stage 1)
    match stage with
    | none => ⟨[("error", 1)], 0, 0, []⟩
    | some n =>
      if n < 1 ∨ n > 8 then ⟨[("error", n)], 0, 0, []⟩
      else if messagesEmpty then ⟨[("error", n)], 0, 0, []⟩
      else
        match process_agent_response (agents n) with
        | none => ⟨[("error", n)], 0, 0, []⟩
        | some kvs =>
          -- `state == "completed"` is true exactly when the value is that string
          let completed := match kvs.lookup "state" with
            | some (.pstr s) => s == "completed"
            | _ => false
          let follow := (kvs.lookup "follow_up_question").getD (.pstr "")
          if completed then
            match update_global_idea_state state kvs with
            | none => ⟨[("error", n)], 1, 0, []⟩
            | some _state2 =>
              let saved := [("Stage completed", n)]
              if n + 1 > 8 then
                ⟨[("active", 9)], 1, 0, saved⟩
              else
                match process_agent_response (agents (n + 1)) with
                | none => ⟨[("error", n + 1)], 1, 1, saved⟩
                | some kvs2 =>
                  let follow2 := (kvs2.lookup "follow_up_question").getD (.pstr "")
                  if pyTruthy follow2 then
                    ⟨[("active", n + 1)], 1, 1, saved ++ [("follow_up", n + 1)]⟩
                  else
                    ⟨[("error", n + 1)], 1, 1, saved⟩
          else
            if pyTruthy follow then
              ⟨[("active", n)], 0, 0, [("follow_up", n)]⟩
            else
              ⟨[("error", n)], 0, 0, []⟩

/-! ## Lemmas about association-list lookup -/

theorem lookup_cons_self {β : Type} {k : String} {v : β} {l : List (String × β)} :
    ((k, v) :: l).lookup k = some v := by
  simp [List.lookup]

theorem lookup_cons_ne {β : Type} {k a : String} {v : β} {l : List (String × β)}
    (h : k ≠ a) : ((a, v) :: l).lookup k = l.lookup k := by
  simp [List.lookup, beq_eq_false_iff_ne.mpr h]

theorem lookup_mem {β : Type} {k : String} {v : β} :
    ∀ {l : List (String × β)}, l.lookup k = some v → (k, v) ∈ l := by
  intro l
  induction l with
  | nil => intro h; simp [List.lookup] at h
  | cons p rest ih =>
    intro h
    by_cases hk : k = p.1
    · subst hk
      rcases p with ⟨a, b⟩
      rw [lookup_cons_self] at h
      simp_all
    · rcases p with ⟨a, b⟩
      rw [lookup_cons_ne hk] at h
      exact List.mem_cons_of_mem _ (ih h)

theorem lookup_eq_none_of_forall {β : Type} {k : String} :
    ∀ {l : List (String × β)}, (∀ p ∈ l, p.1 ≠ k) → l.lookup k = none := by
  intro l
  induction l with
  | nil => intro _; rfl
  | cons p rest ih =>
    intro h
    rcases p with ⟨a, b⟩
    have ha : k ≠ a := fun he => h (a, b) (List.mem_cons_self _ _) he.symm
    rw [lookup_cons_ne ha]
    exact ih (fun q hq => h q (List.mem_cons_of_mem _ hq))

theorem lookup_filter_isNotNone {k : String} :
    ∀ {l : List (String × PyValue)}, (l.map Prod.fst).Nodup →
      (l.filter fun kv => kv.2.isNotNone).lookup k =
        (match l.lookup k with
         | some v => if v.isNotNone then some v else none
         | none => none) := by
  intro l
  induction l with
  | nil => intro _; rfl
  | cons p rest ih =>
    intro hnd
    rcases p with ⟨a, b⟩
    rw [List.map_cons, List.nodup_cons] at hnd
    obtain ⟨hna, hrest⟩ := hnd
    by_cases hk : k = a
    · subst hk
      have hfrest : ((rest.filter fun kv => kv.2.isNotNone).lookup k) = none := by
        refine lookup_eq_none_of_forall (fun q hq he => ?_)
        have hmem : q.1 ∈ rest.map Prod.fst :=
          List.mem_map_of_mem Prod.fst (List.mem_of_mem_filter hq)
        exact hna (he ▸ hmem)
      cases hb : b.isNotNone with
      | true => simp [List.filter_cons, hb, lookup_cons_self]
      | false => simp [List.filter_cons, hb, hfrest, lookup_cons_self]
    · cases hb : b.isNotNone with
      | true =>
        simp only [List.filter_cons, hb, if_true]
        rw [lookup_cons_ne hk, lookup_cons_ne hk]
        exact ih hrest
      | false =>
        simp only [List.filter_cons, hb, Bool.false_eq_true, if_false]
        rw [lookup_cons_ne hk]
        exact ih hrest

/-! ## Round-trip lemmas: `model_validate` on a `model_dump` is the identity -/

theorem decodeOptStr_encodeOptStr (v : Option String) :
    decodeOptStr (encodeOptStr v) = some v := by
  cases v <;> rfl

theorem mapM_decodeStr_map_pstr (xs : List String) :
    (xs.map PyValue.pstr).mapM decodeStr = some xs := by
  induction xs with
  | nil => rfl
  | cons x xs ih =>
    simp only [List.map_cons, List.mapM_cons, ih]
    rfl

theorem decodeTeamMember_dump (m : TeamMember) :
    decodeTeamMember m.dump = some m := by
  simp [TeamMember.dump, decodeTeamMember, List.lookup,
    decodeOptStr_encodeOptStr]

theorem mapM_decodeTeamMember_map_dump (ms : List TeamMember) :
    (ms.map TeamMember.dump).mapM decodeTeamMember = some ms := by
  induction ms with
  | nil => rfl
  | cons m ms ih =>
    simp only [List.map_cons, List.mapM_cons, ih, decodeTeamMember_dump]
    rfl

theorem decodeVal_encodeVal (t : FTy) (v : t.denote) :
    decodeVal t (encodeVal t v) = some v := by
  cases t with
  | ostr => exact decodeOptStr_encodeOptStr v
  | olistStr =>
    cases v with
    | none => rfl
    | some xs =>
      simp only [encodeVal, decodeVal, mapM_decodeStr_map_pstr, Option.map_some']
  | oteam =>
    cases v with
    | none => rfl
    | some ms =>
      simp only [encodeVal, decodeVal, mapM_decodeTeamMember_map_dump,
        Option.map_some']

/-- Every field resolves to itself by name (the schema's field names are
pairwise distinct). -/
theorem fieldOfName_fname : ∀ f : GField, fieldOfName f.fname = some f := by
  decide

theorem state_dump_fname (s : GlobalIdeaState) (f : GField) :
    state_dump s f.fname = some (encodeVal f.ty (s f)) := by
  rw [state_dump, fieldOfName_fname, Option.map_some']

/-! ## C4 — the merge sets exactly the present non-null keys -/

/-- C4.  For every project state `s` and every partial map `p` (a dict of
field values, possibly with extra non-schema keys), the merge
`update_global_idea_state` succeeds and sets exactly those schema fields
whose value in `p` is present and non-null to that value, while every
field that is absent from `p` or null in `p` keeps its value from `s`. -/
theorem merge_sets_nonnull_preserves_null (s : GlobalIdeaState)
    (p : List (String × PyValue))
    (hnd : (p.map Prod.fst).Nodup)
    (hwt : ∀ kv ∈ p, ∀ f : GField, kv.1 = f.fname → (decodeVal f.ty kv.2).isSome) :
    ∃ s2, update_global_idea_state s p = some s2 ∧
      ∀ f : GField,
        (∀ v, p.lookup f.fname = some v → v.isNotNone = true →
          decodeVal f.ty v = some (s2 f)) ∧
        ((p.lookup f.fname = none ∨ p.lookup f.fname = some PyValue.pnone) →
          s2 f = s f) := by
  classical
  set upd := p.filter (fun kv => kv.2.isNotNone) with hupd
  set d : String → Option PyValue := fun k =>
    match upd.lookup k with
    | some v => some v
    | none => state_dump s k with hd
  have hueq : update_global_idea_state s p = model_validate d := rfl
  have hlf : ∀ f : GField, upd.lookup f.fname =
      (match p.lookup f.fname with
       | some v => if v.isNotNone then some v else none
       | none => none) := fun _ => lookup_filter_isNotNone hnd
  have hdval : ∀ f : GField, ∀ v, upd.lookup f.fname = some v →
      (d f.fname).getD PyValue.pnone = v := by
    intro f v hv
    simp only [hd, hv, Option.getD_some]
  have hdnone : ∀ f : GField, upd.lookup f.fname = none →
      (d f.fname).getD PyValue.pnone = encodeVal f.ty (s f) := by
    intro f hv
    simp only [hd, hv, state_dump_fname, Option.getD_some]
  have hdec : ∀ f : GField,
      (decodeVal f.ty ((d f.fname).getD PyValue.pnone)).isSome := by
    intro f
    cases hv : upd.lookup f.fname with
    | none =>
      rw [hdnone f hv, decodeVal_encodeVal]
      rfl
    | some v =>
      rw [hdval f v hv]
      have hmem : (f.fname, v) ∈ p := List.mem_of_mem_filter (lookup_mem hv)
      exact hwt (f.fname, v) hmem f rfl
  have hmv : model_validate d =
      some (fun f => (decodeVal f.ty ((d f.fname).getD PyValue.pnone)).get (hdec f)) := by
    rw [model_validate]
    exact dif_pos hdec
  refine ⟨_, hueq.trans hmv, fun f => ⟨?_, ?_⟩⟩
  · intro v hv hvn
    have hl : upd.lookup f.fname = some v := by
      rw [hlf f, hv]
      simp [hvn]
    calc decodeVal f.ty v
        = decodeVal f.ty ((d f.fname).getD PyValue.pnone) := by rw [hdval f v hl]
      _ = some ((decodeVal f.ty ((d f.fname).getD PyValue.pnone)).get (hdec f)) :=
        (Option.some_get (hdec f)).symm
  · intro hp
    have hl : upd.lookup f.fname = none := by
      rcases hp with hp | hp
      · rw [hlf f, hp]
      · rw [hlf f, hp]
        simp [PyValue.isNotNone]
    have h2 : decodeVal f.ty ((d f.fname).getD PyValue.pnone) = some (s f) := by
      rw [hdnone f hl, decodeVal_encodeVal]
    exact Option.some.inj ((Option.some_get (hdec f)).trans h2)

/-- Witness for C4: a concrete merge exercising the theorem — one
present non-null key, one present null key, one non-schema key. -/
theorem merge_sets_nonnull_preserves_null_witness :
    (([("idea_title", PyValue.pstr "Y"), ("team", PyValue.pnone),
       ("state", PyValue.pstr "completed")].map
        (Prod.fst (α := String) (β := PyValue))).Nodup ∧
     ∀ kv ∈ [("idea_title", PyValue.pstr "Y"), ("team", PyValue.pnone),
             ("state", PyValue.pstr "completed")],
       ∀ f : GField, kv.1 = f.fname → (decodeVal f.ty kv.2).isSome) ∧
    (∃ s2, update_global_idea_state GlobalIdeaState.default
        [("idea_title", PyValue.pstr "Y"), ("team", PyValue.pnone),
         ("state", PyValue.pstr "completed")] = some s2 ∧
      ∀ f : GField,
        (∀ v, [("idea_title", PyValue.pstr "Y"), ("team", PyValue.pnone),
               ("state", PyValue.pstr "completed")].lookup f.fname = some v →
          v.isNotNone = true → decodeVal f.ty v = some (s2 f)) ∧
        (([("idea_title", PyValue.pstr "Y"), ("team", PyValue.pnone),
           ("state", PyValue.pstr "completed")].lookup f.fname = none ∨
          [("idea_title", PyValue.pstr "Y"), ("team", PyValue.pnone),
           ("state", PyValue.pstr "completed")].lookup f.fname =
            some PyValue.pnone) → s2 f = GlobalIdeaState.default f)) :=
  ⟨⟨by decide, by decide⟩,
   merge_sets_nonnull_preserves_null GlobalIdeaState.default _
     (by decide) (by decide)⟩

/-! ## C10 — failure behaviour of the merge -/

/-- Helper: the merge succeeds whenever every value sitting under a
schema key validates (no `Nodup` assumption needed). -/
theorem update_global_idea_state_isSome (s : GlobalIdeaState)
    (p : List (String × PyValue))
    (hwt : ∀ kv ∈ p, ∀ f : GField, kv.1 = f.fname → (decodeVal f.ty kv.2).isSome) :
    (update_global_idea_state s p).isSome := by
  classical
  set upd := p.filter (fun kv => kv.2.isNotNone) with hupd
  set d : String → Option PyValue := fun k =>
    match upd.lookup k with
    | some v => some v
    | none => state_dump s k with hd
  have hueq : update_global_idea_state s p = model_validate d := rfl
  have hdec : ∀ f : GField,
      (decodeVal f.ty ((d f.fname).getD PyValue.pnone)).isSome := by
    intro f
    cases hv : upd.lookup f.fname with
    | none =>
      simp only [hd, hv, state_dump_fname, Option.getD_some, decodeVal_encodeVal]
      rfl
    | some v =>
      simp only [hd, hv, Option.getD_some]
      have hmem : (f.fname, v) ∈ p := List.mem_of_mem_filter (lookup_mem hv)
      exact hwt (f.fname, v) hmem f rfl
  rw [hueq, model_validate, dif_pos hdec]
  rfl

/-- Helper: a merge whose keys all fall outside the schema validates the
dump of `s` back into `s` itself. -/
theorem update_global_idea_state_unknown (s : GlobalIdeaState)
    (p : List (String × PyValue))
    (hunk : ∀ kv ∈ p, fieldOfName kv.1 = none) :
    update_global_idea_state s p = some s := by
  classical
  set upd := p.filter (fun kv => kv.2.isNotNone) with hupd
  set d : String → Option PyValue := fun k =>
    match upd.lookup k with
    | some v => some v
    | none => state_dump s k with hd
  have hueq : update_global_idea_state s p = model_validate d := rfl
  have hnone : ∀ f : GField, upd.lookup f.fname = none := by
    intro f
    cases hv : upd.lookup f.fname with
    | none => rfl
    | some v =>
      have hmem : (f.fname, v) ∈ p := List.mem_of_mem_filter (lookup_mem hv)
      have := hunk (f.fname, v) hmem
      rw [fieldOfName_fname] at this
      exact absurd this (by simp)
  have hdec : ∀ f : GField,
      (decodeVal f.ty ((d f.fname).getD PyValue.pnone)).isSome := by
    intro f
    simp only [hd, hnone f, state_dump_fname, Option.getD_some, decodeVal_encodeVal]
    rfl
  rw [hueq, model_validate, dif_pos hdec]
  refine congrArg some (funext fun f => ?_)
  have h2 : decodeVal f.ty ((d f.fname).getD PyValue.pnone) = some (s f) := by
    simp only [hd, hnone f, state_dump_fname, Option.getD_some, decodeVal_encodeVal]
  exact Option.some.inj ((Option.some_get (hdec f)).trans h2)

/-- C10 counterexample: the merge does NOT reject unknown keys — a
partial whose only key, `"state"`, is not a schema field merges
successfully and leaves the state unchanged; conversely a partial whose
only key IS a schema field can fail (an ill-typed value), so neither half
of the claim holds of the code. -/
theorem merge_unknown_key_not_rejected :
    fieldOfName "state" = none ∧
    update_global_idea_state GlobalIdeaState.default
      [("state", PyValue.pstr "completed")] = some GlobalIdeaState.default ∧
    fieldOfName "idea_title" = some GField.idea_title ∧
    update_global_idea_state GlobalIdeaState.default
      [("idea_title", PyValue.pint 3)] = none := by
  refine ⟨by decide, ?_, by decide, ?_⟩
  · exact update_global_idea_state_unknown GlobalIdeaState.default _ (by decide)
  · simp only [update_global_idea_state, model_validate]
    refine dif_neg (fun hall => ?_)
    exact absurd (hall GField.idea_title) (by decide)

/-- C10 amended.  The merge ignores unknown keys rather than rejecting
them: it succeeds whenever every value under a schema key passes
validation (in particular always when no key is a schema field, in which
case the state is returned unchanged); it fails — raising to the caller,
with no retry — only when some schema field's value fails validation. -/
theorem merge_failure_only_on_invalid_field_value (s : GlobalIdeaState)
    (p : List (String × PyValue)) :
    ((∀ kv ∈ p, ∀ f : GField, kv.1 = f.fname → (decodeVal f.ty kv.2).isSome) →
      (update_global_idea_state s p).isSome) ∧
    ((update_global_idea_state s p).isSome = false →
      ∃ kv ∈ p, ∃ f : GField, kv.1 = f.fname ∧
        (decodeVal f.ty kv.2).isSome = false) ∧
    ((∀ kv ∈ p, fieldOfName kv.1 = none) →
      update_global_idea_state s p = some s) := by
  refine ⟨update_global_idea_state_isSome s p, ?_, update_global_idea_state_unknown s p⟩
  intro hfail
  by_contra hno
  push_neg at hno
  have hwt : ∀ kv ∈ p, ∀ f : GField, kv.1 = f.fname →
      (decodeVal f.ty kv.2).isSome := by
    intro kv hkv f hf
    exact Option.isSome_iff_ne_none.mpr (by simpa using hno kv hkv f hf)
  rw [update_global_idea_state_isSome s p hwt] at hfail
  exact absurd hfail (by simp)

/-- Witness for the amended C10 theorem: a structured response carrying
only the non-schema keys `state` and `follow_up_question` merges
successfully and leaves the state unchanged. -/
theorem merge_failure_only_on_invalid_field_value_witness :
    (update_global_idea_state GlobalIdeaState.default
      [("state", PyValue.pstr "completed"),
       ("follow_up_question", PyValue.pstr "x")]).isSome ∧
    update_global_idea_state GlobalIdeaState.default
      [("state", PyValue.pstr "completed"),
       ("follow_up_question", PyValue.pstr "x")] = some GlobalIdeaState.default :=
  ⟨(merge_failure_only_on_invalid_field_value GlobalIdeaState.default _).1 (by decide),
   (merge_failure_only_on_invalid_field_value GlobalIdeaState.default _).2.2 (by decide)⟩

/-! ## C5 — schedule dates -/

theorem saveSubTasks_dates (ctx : SprintSaveCtx) (week : Int) (week_start : ℚ)
    (parent : SprintTask) (pid : Option String) (sa : Option String) (due : ℚ) :
    ∀ (subs : List String) (ctr : Nat),
      ∀ row ∈ (saveSubTasks ctx week week_start parent pid sa due subs ctr).1,
        row.sprint_week = week ∧ row.start_date = week_start ∧
          row.due_date = due ∧ row.timeline_days = parent.timeline_days := by
  intro subs
  induction subs with
  | nil =>
    intro ctr row hrow
    simp [saveSubTasks] at hrow
  | cons st rest ih =>
    intro ctr row hrow
    rw [saveSubTasks] at hrow
    by_cases hb : st.trim = ""
    · rw [if_pos hb] at hrow
      exact ih ctr row hrow
    · rw [if_neg hb] at hrow
      simp only [List.mem_append] at hrow
      rcases hrow with hrow | hrow
      · by_cases hc : ctx.createOk (taskKey ctx (ctr + 1))
        · rw [if_pos hc] at hrow
          simp only [List.mem_singleton] at hrow
          subst hrow
          exact ⟨rfl, rfl, rfl, rfl⟩
        · rw [if_neg hc] at hrow
          simp at hrow
      · exact ih (ctr + 1) row hrow

theorem saveWeekTasks_dates (ctx : SprintSaveCtx) (week : Int) (week_start : ℚ) :
    ∀ (tasks : List SprintTask) (ctr : Nat),
      ∀ row ∈ (saveWeekTasks ctx week week_start tasks ctr).1,
        row.sprint_week = week ∧ row.start_date = week_start ∧
          row.due_date = week_start + row.timeline_days * 86400 := by
  intro tasks
  induction tasks with
  | nil =>
    intro ctr row hrow
    simp [saveWeekTasks] at hrow
  | cons task rest ih =>
    intro ctr row hrow
    rw [saveWeekTasks] at hrow
    by_cases hc : ctx.createOk (taskKey ctx (ctr + 1))
    · rw [if_pos hc] at hrow
      simp only [List.mem_cons, List.mem_append] at hrow
      rcases hrow with hrow | hrow | hrow
      · subst hrow
        exact ⟨rfl, rfl, rfl⟩
      · obtain ⟨h1, h2, h3, h4⟩ :=
          saveSubTasks_dates ctx week week_start task _ _ _ _ _ row hrow
        refine ⟨h1, h2, ?_⟩
        rw [h3, h4]
      · exact ih _ row hrow
    · rw [if_neg hc] at hrow
      exact ih _ row hrow

theorem saveWeeks_dates (ctx : SprintSaveCtx) :
    ∀ (weeks : List SprintWeek) (ctr : Nat),
      ∀ row ∈ (saveWeeks ctx weeks ctr).1,
        row.start_date =
          compute_week_start_date ctx.base_date row.sprint_week ctx.today_completed ∧
        row.due_date = row.start_date + row.timeline_days * 86400 := by
  intro weeks
  induction weeks with
  | nil =>
    intro ctr row hrow
    simp [saveWeeks] at hrow
  | cons w rest ih =>
    intro ctr row hrow
    rw [saveWeeks] at hrow
    simp only [List.mem_append] at hrow
    rcases hrow with hrow | hrow
    · obtain ⟨h1, h2, h3⟩ := saveWeekTasks_dates ctx w.week _ w.tasks ctr row hrow
      constructor
      · rw [h2, h1]
      · rw [h3, h2]
    · exact ih _ row hrow

/-- C5.  The week start equals midnight UTC of `base_date.date()`, plus one
day when `today_completed`, plus `(week-1)*7` days; every row written by
`save_sprint_weeks_to_db` starts at its week's start and is due
`timeline_days` (fractional) days later; and the three concrete anchor
examples hold (`1704121200 = 2024-01-01T15:00:00Z`,
`1704067200 = 2024-01-01T00:00:00Z`, `1704153600 = 2024-01-02T00:00:00Z`,
`1704672000 = weekStart(2) = 2024-01-08T00:00:00Z`, `216000 s = 60 h`). -/
theorem schedule_dates_deterministic :
    (∀ (b : ℚ) (w : Int) (t : Bool), 1 ≤ w →
      compute_week_start_date b w t =
        (((⌊b / 86400⌋ + (if t then 1 else 0) + (w - 1) * 7) * 86400 : Int) : ℚ)) ∧
    (∀ (ctx : SprintSaveCtx) (weeks : List SprintWeek),
      ∀ row ∈ save_sprint_weeks_to_db ctx weeks,
        row.start_date =
          compute_week_start_date ctx.base_date row.sprint_week ctx.today_completed ∧
        row.due_date = row.start_date + row.timeline_days * 86400) ∧
    compute_week_start_date 1704121200 1 false = 1704067200 ∧
    compute_week_start_date 1704121200 1 true = 1704153600 ∧
    compute_week_start_date 1704121200 2 false + (5/2 : ℚ) * 86400 =
      1704672000 + 60 * 3600 := by
  refine ⟨?_, ?_, by norm_num [compute_week_start_date],
    by norm_num [compute_week_start_date], by norm_num [compute_week_start_date]⟩
  · intro b w t hw
    cases t <;> simp [compute_week_start_date]
  · intro ctx weeks row hrow
    exact saveWeeks_dates ctx weeks 0 row hrow

/-- Witness for C5: the formula at week 2 (`1 ≤ 2` discharged) and the
per-row property for a one-task week-2 schedule with duration 2.5 days. -/
theorem schedule_dates_deterministic_witness :
    (1 ≤ (2 : Int)) ∧
    compute_week_start_date 1704121200 2 false =
      (((⌊(1704121200 : ℚ) / 86400⌋ + (if false then 1 else 0) + (2 - 1) * 7) *
        86400 : Int) : ℚ) ∧
    (∀ row ∈ save_sprint_weeks_to_db
        ⟨"0123456789ab", none, 1704121200, false, fun _ => true, fun k => k,
         fun s => some s⟩
        [⟨2, [⟨"T", "D", "High", 5/2, "a", none⟩]⟩],
      row.start_date = compute_week_start_date 1704121200 row.sprint_week false ∧
      row.due_date = row.start_date + row.timeline_days * 86400) :=
  ⟨by decide,
   schedule_dates_deterministic.1 1704121200 2 false (by decide),
   schedule_dates_deterministic.2.1
     ⟨"0123456789ab", none, 1704121200, false, fun _ => true, fun k => k,
      fun s => some s⟩
     [⟨2, [⟨"T", "D", "High", 5/2, "a", none⟩]⟩]⟩

/-! ## C9 — persistence retry layer -/

/-- C9.  Both retried saves: (1) run at most 3 attempts, and the sleeps
performed are always an initial prefix of
`[0.5 * 2^0 + jitter 0, 0.5 * 2^1 + jitter 1]` (a delay of
`base * 2^attempt + jitter` before each retry, never before attempt 0 and
never after the last attempt); (2) a non-transient error on the first
attempt aborts immediately — one attempt, no rows, no sleeps; (3) two
transient failures followed by a success give one successful write (a
single row) after exactly the delays `0.5 + j0` and `1.0 + j1`, whose
total is `1.5 + j0 + j1 ∈ [1.5, 1.7]` when each jitter lies in
`[0, 0.1]`. -/
theorem retry_bounded_backoff :
    (∀ (oc : Nat → DbOutcome) (j : Nat → ℚ),
      ((save_user_message true true oc j).attempts ≤ 3 ∧
       (save_user_message true true oc j).delays =
         ([1/2 + j 0, 1 + j 1].take ((save_user_message true true oc j).attempts - 1)) ∧
       (save_agent_message true true oc j).attempts ≤ 3 ∧
       (save_agent_message true true oc j).delays =
         ([1/2 + j 0, 1 + j 1].take ((save_agent_message true true oc j).attempts - 1)))) ∧
    (∀ (oc : Nat → DbOutcome) (j : Nat → ℚ), oc 0 = DbOutcome.fatalErr →
      save_user_message true true oc j = ⟨false, 0, 1, []⟩ ∧
      save_agent_message true true oc j = ⟨false, 0, 1, []⟩) ∧
    (∀ (j : Nat → ℚ), (∀ i, 0 ≤ j i ∧ j i ≤ 1/10) →
      save_user_message true true
          (fun n => if n < 2 then DbOutcome.transientErr else DbOutcome.ok) j =
        ⟨true, 1, 3, [1/2 + j 0, 1 + j 1]⟩ ∧
      (1/2 + j 0) + (1 + j 1) ∈ Set.Icc (3/2 : ℚ) (17/10)) := by
  refine ⟨?_, ?_, ?_⟩
  · intro oc j
    rcases h0 : oc 0 <;> rcases h1 : oc 1 <;> rcases h2 : oc 2 <;>
      simp [save_user_message, save_agent_message, attemptLoop, h0, h1, h2,
        max_retries, base_retry_delay]
  · intro oc j h0
    constructor <;>
      simp [save_user_message, save_agent_message, attemptLoop, h0, max_retries]
  · intro j hj
    constructor
    · simp [save_user_message, attemptLoop, max_retries, base_retry_delay]
    · obtain ⟨h0a, h0b⟩ := hj 0
      obtain ⟨h1a, h1b⟩ := hj 1
      constructor
      · linarith
      · linarith

/-- Witness for C9: the fatal-abort and transient-scenario parts at a
concrete outcome sequence and zero jitter. -/
theorem retry_bounded_backoff_witness :
    ((fun _ : Nat => DbOutcome.fatalErr) 0 = DbOutcome.fatalErr ∧
     save_user_message true true (fun _ => DbOutcome.fatalErr) (fun _ => 0) =
       ⟨false, 0, 1, []⟩) ∧
    ((∀ i : Nat, 0 ≤ (fun _ : Nat => (0 : ℚ)) i ∧ (fun _ : Nat => (0 : ℚ)) i ≤ 1/10) ∧
     save_user_message true true
        (fun n => if n < 2 then DbOutcome.transientErr else DbOutcome.ok)
        (fun _ => 0) =
      ⟨true, 1, 3, [1/2 + (fun _ : Nat => (0 : ℚ)) 0, 1 + (fun _ : Nat => (0 : ℚ)) 1]⟩) :=
  ⟨⟨rfl, (retry_bounded_backoff.2.1 (fun _ => DbOutcome.fatalErr) (fun _ => 0) rfl).1⟩,
   ⟨fun _ => by norm_num,
    (retry_bounded_backoff.2.2 (fun _ => 0) (fun _ => by norm_num)).1⟩⟩

/-! ## C7 — stage resolution from the transcript -/

/-- Helper: the resolved stage is at least the stage tag of the last
message. -/
theorem determine_last_ge (m : Msg) (msgs : List Msg)
    (h : msgs.getLast? = some m) :
    m.stage ≤ determine_current_stage msgs := by
  simp only [determine_current_stage, h]
  split_ifs with h1 h2 h3
  · obtain ⟨h8, -⟩ := h1
    omega
  · obtain ⟨h8, -⟩ := h1
    omega
  · omega
  · exact le_refl _

/-- C7 counterexample: a transcript whose last entry is tagged with the
legal stage 9 resolves to stage 10 — `determine_current_stage` exceeds 9. -/
theorem determine_current_stage_exceeds_nine :
    determine_current_stage [⟨"assistant", 9, none⟩] = 10 ∧
    ¬ determine_current_stage [⟨"assistant", 9, none⟩] ≤ 9 := by
  constructor <;> decide

/-- C7 amended.  Over transcripts of persisted messages (whose stage tags
`ChatMessageModel` validates into 1..9), the resolved stage lies in 1..10
(value 10 arises exactly from a stage-9 last entry and marks the session
as past completion); and it is non-decreasing under appending a completed
turn's messages, all of which the orchestrator tags at or above the
currently resolved stage. -/
theorem stage_resolution_monotone_le_ten :
    (∀ messages : List Msg, (∀ m ∈ messages, 1 ≤ m.stage ∧ m.stage ≤ 9) →
      1 ≤ determine_current_stage messages ∧
        determine_current_stage messages ≤ 10) ∧
    (∀ old tail : List Msg, tail ≠ [] →
      (∀ m ∈ tail, determine_current_stage old ≤ m.stage) →
      determine_current_stage old ≤ determine_current_stage (old ++ tail)) := by
  constructor
  · intro messages hm
    cases hl : messages.getLast? with
    | none => simp [determine_current_stage, hl]
    | some m =>
      have hmem : m ∈ messages := by
        have hne : messages ≠ [] := by
          intro he
          rw [he] at hl
          simp at hl
        have := List.getLast?_eq_getLast_of_ne_nil hne
        rw [this] at hl
        obtain hlm := Option.some.inj hl
        rw [← hlm]
        exact List.getLast_mem hne
      obtain ⟨hlo, hhi⟩ := hm m hmem
      simp only [determine_current_stage, hl]
      split_ifs <;> omega
  · intro old tail hne hm
    have happ : (old ++ tail).getLast? = tail.getLast? :=
      List.getLast?_append_of_ne_nil old hne
    have := List.getLast?_eq_getLast_of_ne_nil hne
    set m := tail.getLast hne with hmdef
    have hmem : m ∈ tail := List.getLast_mem hne
    have hge : m.stage ≤ determine_current_stage (old ++ tail) := by
      apply determine_last_ge
      rw [happ, this]
    exact le_trans (hm m hmem) hge

/-- Witness for the amended C7 theorem: bounds on a stage-8 transcript,
and monotonicity when appending a stage-9 entry to a stage-8 transcript. -/
theorem stage_resolution_monotone_le_ten_witness :
    ((∀ m ∈ [(⟨"assistant", 8, none⟩ : Msg)], 1 ≤ m.stage ∧ m.stage ≤ 9) ∧
     1 ≤ determine_current_stage [(⟨"assistant", 8, none⟩ : Msg)] ∧
     determine_current_stage [(⟨"assistant", 8, none⟩ : Msg)] ≤ 10) ∧
    (([(⟨"assistant", 9, none⟩ : Msg)] : List Msg) ≠ [] ∧
     (∀ m ∈ [(⟨"assistant", 9, none⟩ : Msg)],
        determine_current_stage [(⟨"user", 8, none⟩ : Msg)] ≤ m.stage) ∧
     determine_current_stage [(⟨"user", 8, none⟩ : Msg)] ≤
       determine_current_stage
         ([(⟨"user", 8, none⟩ : Msg)] ++ [(⟨"assistant", 9, none⟩ : Msg)])) :=
  ⟨⟨by decide, stage_resolution_monotone_le_ten.1 _ (by decide)⟩,
   ⟨List.cons_ne_nil _ _, by decide,
    stage_resolution_monotone_le_ten.2 _ _ (List.cons_ne_nil _ _) (by decide)⟩⟩

/-! ## C6 — background narrative job -/

/-- Helper: the per-category saver only appends to the store. -/
theorem save_category_db_extends (project_id category : String)
    (saveOk : NarrativeSection → Bool) :
    ∀ (secs : List NarrativeSection) (db : List SectionRow),
      ∃ new, (save_category_sections_to_db db project_id category saveOk secs).1 =
        db ++ new := by
  intro secs
  induction secs with
  | nil =>
    intro db
    exact ⟨[], by simp [save_category_sections_to_db]⟩
  | cons s rest ih =>
    intro db
    rw [save_category_sections_to_db]
    split_ifs with h1 h2 h3
    · exact ih db
    · exact ih db
    · obtain ⟨new, hnew⟩ := ih (db ++ [⟨project_id, category, s.name,
        s.section_type, s.content, s.position⟩])
      exact ⟨_, by simpa [List.append_assoc] using hnew⟩
    · exact ih db

/-- Helper: the loop's wall-clock reading index is irrelevant when the
budget is never exceeded. -/
theorem narrativeLoop_idx_irrelevant (project_id : String)
    (gen : String → Int → GenOutcome) (saveOk : NarrativeSection → Bool)
    (elapsed : Nat → ℚ) (T : ℚ) (ht : ∀ i, elapsed i ≤ T) :
    ∀ (plan : List (String × List String)) (idx idx2 : Nat) (pos : Int)
      (db : List SectionRow) (sa fa : Nat),
      narrativeLoop project_id gen saveOk elapsed T plan idx pos db sa fa =
        narrativeLoop project_id gen saveOk elapsed T plan idx2 pos db sa fa := by
  intro plan
  induction plan with
  | nil => intro idx idx2 pos db sa fa; rfl
  | cons hd rest ih =>
    intro idx idx2 pos db sa fa
    rcases hd with ⟨category, names⟩
    rw [narrativeLoop, narrativeLoop,
      if_neg (not_lt.mpr (ht idx)), if_neg (not_lt.mpr (ht idx2))]
    cases gen category pos with
    | raise => exact ih _ _ _ _ _ _
    | ok secs =>
      dsimp only
      by_cases he : secs.isEmpty
      · rw [if_pos he, if_pos he]
        exact ih _ _ _ _ _ _
      · rw [if_neg he, if_neg he]
        exact ih _ _ _ _ _ _

/-- Helper: the failure tally threads additively through the loop. -/
theorem narrativeLoop_failed_add (project_id : String)
    (gen : String → Int → GenOutcome) (saveOk : NarrativeSection → Bool)
    (elapsed : Nat → ℚ) (T : ℚ) :
    ∀ (plan : List (String × List String)) (idx : Nat) (pos : Int)
      (db : List SectionRow) (sa fa k : Nat),
      narrativeLoop project_id gen saveOk elapsed T plan idx pos db sa (fa + k) =
        (fun r => ⟨r.db, r.total_saved, r.total_failed + k, r.timed_out⟩)
          (narrativeLoop project_id gen saveOk elapsed T plan idx pos db sa fa) := by
  intro plan
  induction plan with
  | nil => intro idx pos db sa fa k; rfl
  | cons hd rest ih =>
    intro idx pos db sa fa k
    rcases hd with ⟨category, names⟩
    rw [narrativeLoop, narrativeLoop]
    by_cases htime : elapsed idx > T
    · rw [if_pos htime, if_pos htime]
    · rw [if_neg htime, if_neg htime]
      cases gen category pos with
      | raise =>
        have : fa + k + names.length = fa + names.length + k := by omega
        rw [this]
        exact ih _ _ _ _ _ _
      | ok secs =>
        dsimp only
        by_cases he : secs.isEmpty
        · rw [if_pos he, if_pos he]
          have : fa + k + names.length = fa + names.length + k := by omega
          rw [this]
          exact ih _ _ _ _ _ _
        · rw [if_neg he, if_neg he]
          have : fa + k +
              (save_category_sections_to_db db project_id category saveOk secs).2.2 =
              fa + (save_category_sections_to_db db project_id category saveOk secs).2.2
                + k := by omega
          rw [this]
          exact ih _ _ _ _ _ _

/-- Helper: the loop only appends to the store. -/
theorem narrativeLoop_db_extends (project_id : String)
    (gen : String → Int → GenOutcome) (saveOk : NarrativeSection → Bool)
    (elapsed : Nat → ℚ) (T : ℚ) :
    ∀ (plan : List (String × List String)) (idx : Nat) (pos : Int)
      (db : List SectionRow) (sa fa : Nat),
      ∃ new, (narrativeLoop project_id gen saveOk elapsed T plan idx pos db sa fa).db =
        db ++ new := by
  intro plan
  induction plan with
  | nil =>
    intro idx pos db sa fa
    exact ⟨[], by simp [narrativeLoop]⟩
  | cons hd rest ih =>
    intro idx pos db sa fa
    rcases hd with ⟨category, names⟩
    rw [narrativeLoop]
    by_cases htime : elapsed idx > T
    · rw [if_pos htime]
      exact ⟨[], by simp⟩
    · rw [if_neg htime]
      cases gen category pos with
      | raise => exact ih _ _ _ _ _
      | ok secs =>
        dsimp only
        by_cases he : secs.isEmpty
        · rw [if_pos he]
          exact ih _ _ _ _ _
        · rw [if_neg he]
          obtain ⟨mid, hmid⟩ := save_category_db_extends project_id category saveOk secs db
          obtain ⟨new, hnew⟩ := ih (idx + 1) (pos + names.length)
            (save_category_sections_to_db db project_id category saveOk secs).1
            (sa + (save_category_sections_to_db db project_id category saveOk secs).2.1)
            (fa + (save_category_sections_to_db db project_id category saveOk secs).2.2)
          refine ⟨mid ++ new, ?_⟩
          rw [hnew, hmid, List.append_assoc]

/-- Helper: when a category's generation always raises and the budget is
never exceeded, the loop over a plan containing that category behaves
exactly like the loop over the plan without it, except that the
category's full section count is added to the failure tally. -/
theorem narrativeLoop_raise_skipped (project_id : String)
    (gen : String → Int → GenOutcome) (saveOk : NarrativeSection → Bool)
    (elapsed : Nat → ℚ) (T : ℚ) (c : String) (names : List String)
    (P2 : List (String × List String))
    (hg : ∀ p, gen c p = GenOutcome.raise) (ht : ∀ i, elapsed i ≤ T) :
    ∀ (P1 : List (String × List String)) (idx : Nat) (pos : Int)
      (db : List SectionRow) (sa fa : Nat),
      narrativeLoop project_id gen saveOk elapsed T (P1 ++ (c, names) :: P2)
          idx pos db sa fa =
        (fun r => ⟨r.db, r.total_saved, r.total_failed + names.length, r.timed_out⟩)
          (narrativeLoop project_id gen saveOk elapsed T (P1 ++ P2)
            idx pos db sa fa) := by
  intro P1
  induction P1 with
  | nil =>
    intro idx pos db sa fa
    rw [List.nil_append, List.nil_append, narrativeLoop,
      if_neg (not_lt.mpr (ht idx)), hg pos]
    rw [narrativeLoop_idx_irrelevant project_id gen saveOk elapsed T ht P2
      (idx + 1) idx pos db sa (fa + names.length)]
    exact narrativeLoop_failed_add project_id gen saveOk elapsed T P2
      idx pos db sa fa names.length
  | cons hd P1tail ih =>
    intro idx pos db sa fa
    rcases hd with ⟨c1, n1⟩
    rw [List.cons_append, List.cons_append, narrativeLoop, narrativeLoop,
      if_neg (not_lt.mpr (ht idx)), if_neg (not_lt.mpr (ht idx))]
    cases hgen : gen c1 pos with
    | raise => exact ih _ _ _ _ _
    | ok secs =>
      dsimp only
      by_cases he : secs.isEmpty
      · rw [if_pos he, if_pos he]
        exact ih _ _ _ _ _
      · rw [if_neg he, if_neg he]
        exact ih _ _ _ _ _

/-- C6 amended.  In the Background Narrative Job, a category whose
generation call raises contributes zero sections: with the wall-clock
budget never exceeded, the job's persisted rows and saved tally are
exactly those of the same job run without that category (so all later
categories are still processed and earlier categories' rows are
untouched), the failing category's full section count is added to the
failure tally, and the store only grows by appended rows (`db0` is
preserved).  The job itself is a total function of its oracles — its
outer `except` swallows every exception, so nothing propagates to the
caller.  (A per-section persistence failure, by contrast, loses only that
section — see the counterexample.) -/
theorem narrative_raising_category_contributes_zero
    (project_id : String) (gen : String → Int → GenOutcome)
    (saveOk : NarrativeSection → Bool) (elapsed : Nat → ℚ)
    (timeout_minutes : ℚ) (P1 P2 : List (String × List String))
    (c : String) (names : List String) (db0 : List SectionRow)
    (hg : ∀ p, gen c p = GenOutcome.raise)
    (ht : ∀ i, elapsed i ≤ timeout_minutes * 60) :
    (generate_and_save_narrative_sections_background db0 project_id
        (P1 ++ (c, names) :: P2) gen saveOk elapsed timeout_minutes).db =
      (generate_and_save_narrative_sections_background db0 project_id
        (P1 ++ P2) gen saveOk elapsed timeout_minutes).db ∧
    (generate_and_save_narrative_sections_background db0 project_id
        (P1 ++ (c, names) :: P2) gen saveOk elapsed timeout_minutes).total_saved =
      (generate_and_save_narrative_sections_background db0 project_id
        (P1 ++ P2) gen saveOk elapsed timeout_minutes).total_saved ∧
    (generate_and_save_narrative_sections_background db0 project_id
        (P1 ++ (c, names) :: P2) gen saveOk elapsed timeout_minutes).total_failed =
      (generate_and_save_narrative_sections_background db0 project_id
        (P1 ++ P2) gen saveOk elapsed timeout_minutes).total_failed + names.length ∧
    ∃ new, (generate_and_save_narrative_sections_background db0 project_id
        (P1 ++ (c, names) :: P2) gen saveOk elapsed timeout_minutes).db =
      db0 ++ new := by
  have h := narrativeLoop_raise_skipped project_id gen saveOk elapsed
    (timeout_minutes * 60) c names P2 hg ht P1 0 0 db0 0 0
  rw [generate_and_save_narrative_sections_background, h]
  refine ⟨rfl, rfl, rfl, ?_⟩
  exact narrativeLoop_db_extends project_id gen saveOk elapsed
    (timeout_minutes * 60) (P1 ++ P2) 0 0 db0 0 0

/-- Witness for C6: a three-category plan whose middle category always
raises; the job saves the first and last categories' sections and counts
the middle one's two sections as failures. -/
theorem narrative_raising_category_contributes_zero_witness :
    ((∀ p : Int, (fun cat (_ : Int) => if cat == "bad" then GenOutcome.raise
        else GenOutcome.ok [⟨cat, "N", "text", "C", 0⟩]) "bad" p =
          GenOutcome.raise) ∧
     (∀ i : Nat, (fun _ : Nat => (0 : ℚ)) i ≤ 30 * 60)) ∧
    ((generate_and_save_narrative_sections_background [] "p"
        ([("a", ["x"])] ++ ("bad", ["s1", "s2"]) :: [("b", ["y"])])
        (fun cat (_ : Int) => if cat == "bad" then GenOutcome.raise
          else GenOutcome.ok [⟨cat, "N", "text", "C", 0⟩])
        (fun _ => true) (fun _ => 0) 30).db =
      (generate_and_save_narrative_sections_background [] "p"
        ([("a", ["x"])] ++ [("b", ["y"])])
        (fun cat (_ : Int) => if cat == "bad" then GenOutcome.raise
          else GenOutcome.ok [⟨cat, "N", "text", "C", 0⟩])
        (fun _ => true) (fun _ => 0) 30).db ∧
     (generate_and_save_narrative_sections_background [] "p"
        ([("a", ["x"])] ++ ("bad", ["s1", "s2"]) :: [("b", ["y"])])
        (fun cat (_ : Int) => if cat == "bad" then GenOutcome.raise
          else GenOutcome.ok [⟨cat, "N", "text", "C", 0⟩])
        (fun _ => true) (fun _ => 0) 30).total_failed =
      (generate_and_save_narrative_sections_background [] "p"
        ([("a", ["x"])] ++ [("b", ["y"])])
        (fun cat (_ : Int) => if cat == "bad" then GenOutcome.raise
          else GenOutcome.ok [⟨cat, "N", "text", "C", 0⟩])
        (fun _ => true) (fun _ => 0) 30).total_failed + 2) :=
  ⟨⟨fun _ => rfl, fun _ => by norm_num⟩,
   (narrative_raising_category_contributes_zero "p" _ _ _ 30
      [("a", ["x"])] [("b", ["y"])] "bad" ["s1", "s2"] []
      (fun _ => rfl) (fun _ => by norm_num)).1,
   (narrative_raising_category_contributes_zero "p" _ _ _ 30
      [("a", ["x"])] [("b", ["y"])] "bad" ["s1", "s2"] []
      (fun _ => rfl) (fun _ => by norm_num)).2.2.1⟩

/-- C6 counterexample (to the claim as stated): when persisting a
category's second section raises (`saveOk` is false for it), the category
still contributes its first section — one row persisted, not zero — so a
category whose persist step raises is not recorded as contributing zero
sections. -/
theorem narrative_persist_failure_keeps_partial_sections :
    (fun s : NarrativeSection => s.name == "A") ⟨"narrative", "B", "text", "cb", 1⟩
      = false ∧
    generate_and_save_narrative_sections_background [] "p"
        [("narrative", ["A", "B"])]
        (fun _ _ => GenOutcome.ok
          [⟨"narrative", "A", "text", "ca", 0⟩, ⟨"narrative", "B", "text", "cb", 1⟩])
        (fun s => s.name == "A") (fun _ => 0) 30 =
      ⟨[⟨"p", "narrative", "A", "text", "ca", 0⟩], 1, 1, false⟩ := by
  constructor
  · rfl
  · rw [generate_and_save_narrative_sections_background, narrativeLoop,
      if_neg (by norm_num : ¬ ((fun _ : Nat => (0 : ℚ)) 0 > 30 * 60))]
    dsimp only
    simp only [List.isEmpty_cons, Bool.false_eq_true, if_false]
    decide

/-! ## C1 — acting-user resolution in `complete_stage` -/

/-- C1 (code bug).  Priority 1 works: an explicit, truthy caller-supplied
id is used and resolved through `get_user_from_db`/`safe_uuid_or_none`.
But priorities 2 and 3 are unreachable: `GlobalIdeaState` declares no
`user_preferences` field, so whenever the explicit id is falsy the
condition `elif global_idea_state.user_preferences and ...` raises
`AttributeError` for every state — the run is fatal regardless of the
state's contents, not only when no source can resolve a user. -/
theorem resolve_acting_user_requires_explicit_id :
    (∀ (state : GlobalIdeaState) (db : UserDb),
      resolve_acting_user none state db =
        Except.error (PyErr.attributeError
          "'GlobalIdeaState' object has no attribute 'user_preferences'")) ∧
    (∀ (state : GlobalIdeaState) (db : UserDb),
      resolve_acting_user (some "") state db =
        Except.error (PyErr.attributeError
          "'GlobalIdeaState' object has no attribute 'user_preferences'")) ∧
    (∀ (state : GlobalIdeaState) (db : UserDb) (u : String) (lu : LeadUser)
       (i : String), u ≠ "" → db.get_user u = some lu →
       db.safe_uuid lu.id = some i →
       resolve_acting_user (some u) state db = Except.ok i) := by
  refine ⟨fun state db => rfl, fun state db => rfl, ?_⟩
  intro state db u lu i hne hget hsafe
  have htru : truthyOptStr (some u) = true := by
    simp [truthyOptStr, hne]
  rw [resolve_acting_user, if_pos htru]
  simp only [Option.getD_some, hget, hsafe]

/-- Witness for C1: the explicit-id path at a concrete database. -/
theorem resolve_acting_user_requires_explicit_id_witness :
    (("u1" : String) ≠ "" ∧
     (UserDb.mk (fun u => some ⟨"id-1", u⟩) (fun s => some s)).get_user "u1" =
       some ⟨"id-1", "u1"⟩ ∧
     (UserDb.mk (fun u => some ⟨"id-1", u⟩) (fun s => some s)).safe_uuid "id-1" =
       some "id-1") ∧
    resolve_acting_user (some "u1") GlobalIdeaState.default
      ⟨fun u => some ⟨"id-1", u⟩, fun s => some s⟩ = Except.ok "id-1" :=
  ⟨⟨by decide, rfl, rfl⟩,
   resolve_acting_user_requires_explicit_id.2.2 GlobalIdeaState.default
     ⟨fun u => some ⟨"id-1", u⟩, fun s => some s⟩ "u1" ⟨"id-1", "u1"⟩ "id-1"
     (by decide) rfl rfl⟩

/-! ## C3 — error events and fatal aborts -/

/-- C3 (code bug).  The `Event` model cannot represent type `"error"` or
status `"failed"`: its `Literal` lists omit both, so the very
construction `Event(event_type="error", event_status="failed")` raises
`ValidationError`.  Consequently: a run with no resolvable identity
aborts and propagates but emits no event at all; a run with a missing
title aborts after the team-sync events with a `ValueError` and emits no
error event; and on the lead-user-not-found path the attempted error
event itself raises `ValidationError` instead of being emitted. -/
theorem error_event_cannot_be_emitted :
    mkEvent "error" "failed" none =
      Except.error (PyErr.validationError "event_type: error") ∧
    (∀ (ctx : CompleteStageCtx) (state : GlobalIdeaState),
      complete_stage ctx state none =
        ([], some (PyErr.attributeError
          "'GlobalIdeaState' object has no attribute 'user_preferences'"))) ∧
    (complete_stage
        ⟨⟨fun u => some ⟨"id-1", u⟩, fun s => some s⟩, "proj-1", true, true,
         true, true⟩
        GlobalIdeaState.default (some "u1") =
      ([Event.mk "team_members_synced" "started" none,
        Event.mk "team_members_synced" "completed" none],
       some (PyErr.valueError "idea_title is required to create a project")) ∧
     ∀ e ∈ (complete_stage
        ⟨⟨fun u => some ⟨"id-1", u⟩, fun s => some s⟩, "proj-1", true, true,
         true, true⟩
        GlobalIdeaState.default (some "u1")).1, e.event_type ≠ "error") ∧
    (∀ state : GlobalIdeaState,
      complete_stage ⟨⟨fun _ => none, fun s => some s⟩, "proj-1", true, true,
          true, true⟩ state (some "u1") =
        ([], some (PyErr.validationError "event_type: error"))) := by
  refine ⟨rfl, fun ctx state => rfl, ⟨by decide, by decide⟩, fun state => rfl⟩

/-! ## C2 — event ordering in a finalization run -/

/-- C2 amended.  Every finalization run that finishes without raising
emits exactly this sequence, in pipeline order: team sync
started/completed, project creation started/completed, source update
started/completed (only when the session has documents), sprint plan
started/completed, then a single `narrative_sections_started/started`
event for the detached narrative job — which never gets a matching
completed event — and finally the overall `completed` event carrying the
project id. -/
theorem pipeline_events_ordered (ctx : CompleteStageCtx)
    (state : GlobalIdeaState) (user_id : Option String) (es : List Event)
    (h : complete_stage ctx state user_id = (es, none)) :
    es = [Event.mk "team_members_synced" "started" none,
          Event.mk "team_members_synced" "completed" none,
          Event.mk "project_created" "started" none,
          Event.mk "project_created" "completed" none] ++
         (if ctx.hasDocuments then
            [Event.mk "sources_updated" "started" none,
             Event.mk "sources_updated" "completed" none]
          else []) ++
         [Event.mk "sprint_plan_generated" "started" none,
          Event.mk "sprint_plan_generated" "completed" none,
          Event.mk "narrative_sections_started" "started" none,
          Event.mk "completed" "completed" (some ctx.project_id)] := by
  rw [complete_stage] at h
  cases hres : resolve_acting_user user_id state ctx.db with
  | error e =>
    rw [hres] at h
    simp at h
  | ok lid =>
    rw [hres] at h
    dsimp only at h
    split_ifs at h with h1 h2 h3 h4 h5 h6
    all_goals
      first
      | exact Option.noConfusion (congrArg Prod.snd h)
      | (have hes := congrArg Prod.fst h
         dsimp only at hes
         rw [← hes]
         simp [*, List.append_assoc])

/-- Witness for the amended C2 theorem: a concrete successful run with
documents present. -/
theorem pipeline_events_ordered_witness :
    complete_stage
        ⟨⟨fun u => some ⟨"id-1", u⟩, fun s => some s⟩, "proj-1", true, true,
         true, true⟩ stateWithTitle (some "u1") =
      ((complete_stage
        ⟨⟨fun u => some ⟨"id-1", u⟩, fun s => some s⟩, "proj-1", true, true,
         true, true⟩ stateWithTitle (some "u1")).1, none) ∧
    (complete_stage
        ⟨⟨fun u => some ⟨"id-1", u⟩, fun s => some s⟩, "proj-1", true, true,
         true, true⟩ stateWithTitle (some "u1")).1 =
      [Event.mk "team_members_synced" "started" none,
       Event.mk "team_members_synced" "completed" none,
       Event.mk "project_created" "started" none,
       Event.mk "project_created" "completed" none] ++
      (if true then
         [Event.mk "sources_updated" "started" none,
          Event.mk "sources_updated" "completed" none]
       else []) ++
      [Event.mk "sprint_plan_generated" "started" none,
       Event.mk "sprint_plan_generated" "completed" none,
       Event.mk "narrative_sections_started" "started" none,
       Event.mk "completed" "completed" (some "proj-1")] :=
  ⟨by decide,
   pipeline_events_ordered
     ⟨⟨fun u => some ⟨"id-1", u⟩, fun s => some s⟩, "proj-1", true, true,
      true, true⟩ stateWithTitle (some "u1") _ (by decide)⟩

/-- C2 counterexample: in a concrete successful run the narrative step
emits its started event but never a completed event, and a later event
(the overall `completed`) follows it — so not every step that runs emits
started-then-completed before later events. -/
theorem narrative_step_has_no_completed_event :
    (complete_stage
        ⟨⟨fun u => some ⟨"id-1", u⟩, fun s => some s⟩, "proj-1", true, true,
         true, true⟩ stateWithTitle (some "u1")).2 = none ∧
    Event.mk "narrative_sections_started" "started" none ∈
      (complete_stage
        ⟨⟨fun u => some ⟨"id-1", u⟩, fun s => some s⟩, "proj-1", true, true,
         true, true⟩ stateWithTitle (some "u1")).1 ∧
    (∀ e ∈ (complete_stage
        ⟨⟨fun u => some ⟨"id-1", u⟩, fun s => some s⟩, "proj-1", true, true,
         true, true⟩ stateWithTitle (some "u1")).1,
      e.event_type = "narrative_sections_started" → e.event_status ≠ "completed") ∧
    (complete_stage
        ⟨⟨fun u => some ⟨"id-1", u⟩, fun s => some s⟩, "proj-1", true, true,
         true, true⟩ stateWithTitle (some "u1")).1.getLast? =
      some (Event.mk "completed" "completed" (some "proj-1")) := by
  refine ⟨by decide, by decide, by decide, by decide⟩

/-! ## C8 — one-hop chaining bound per turn -/

/-- C8.  A single conversational turn at stage `n` (1 ≤ n ≤ 8) merges
stage fields into the project state at most once, performs at most one
greeting-only auto-invocation of the next stage agent, and never advances
past stage `n + 1`: every yielded response and every persisted assistant
message is tagged with a stage at most `n + 1`. -/
theorem single_turn_advances_at_most_one_stage
    (agents : Int → AgentResult) (cctx : CompleteStageCtx)
    (state : GlobalIdeaState) (user_id : Option String) (n : Int)
    (messagesEmpty : Bool) (h1 : 1 ≤ n) (h8 : n ≤ 8) :
    (workflow_execute agents cctx state user_id (some n) messagesEmpty).merges ≤ 1 ∧
    (workflow_execute agents cctx state user_id (some n) messagesEmpty).chained_invokes ≤ 1 ∧
    (∀ p ∈ (workflow_execute agents cctx state user_id (some n) messagesEmpty).responses,
      p.2 ≤ n + 1) ∧
    (∀ p ∈ (workflow_execute agents cctx state user_id (some n) messagesEmpty).saved,
      p.2 ≤ n + 1) := by
  have h9 : ¬ ((some n : Option Int) = some 9) := by
    intro hc
    exact absurd (Option.some.inj hc) (by omega)
  have hr : ¬ (n < 1 ∨ n > 8) := by omega
  rw [workflow_execute, if_neg h9]
  dsimp only
  rw [if_neg hr]
  cases messagesEmpty with
  | true =>
    simp
  | false =>
    rw [if_neg (by simp)]
    cases hp : process_agent_response (agents n) with
    | none =>
      simp
    | some kvs =>
      dsimp only
      by_cases hck : (match kvs.lookup "state" with
        | some (.pstr s) => s == "completed"
        | _ => false) = true
      · rw [if_pos hck]
        cases hup : update_global_idea_state state kvs with
        | none =>
          simp
        | some state2 =>
          dsimp only
          by_cases hnext : n + 1 > 8
          · rw [if_pos hnext]
            simp
            omega
          · rw [if_neg hnext]
            cases hp2 : process_agent_response (agents (n + 1)) with
            | none =>
              simp
            | some kvs2 =>
              dsimp only
              by_cases hf2 : pyTruthy ((kvs2.lookup "follow_up_question").getD
                  (PyValue.pstr ""))
              · rw [if_pos hf2]
                simp
              · rw [if_neg hf2]
                simp
      · rw [if_neg hck]
        by_cases hf : pyTruthy ((kvs.lookup "follow_up_question").getD
            (PyValue.pstr ""))
        · rw [if_pos hf]
          simp
        · rw [if_neg hf]
          simp

/-- Witness for C8: a stage-3 turn whose agent reports `completed` and
whose chained stage-4 agent returns an opening question. -/
theorem single_turn_advances_at_most_one_stage_witness :
    ((1 : Int) ≤ 3 ∧ (3 : Int) ≤ 8) ∧
    ((workflow_execute
        (fun _ => ⟨false, some [("state", PyValue.pstr "completed"),
                               ("follow_up_question", PyValue.pstr "next?")]⟩)
        ⟨⟨fun u => some ⟨"id-1", u⟩, fun s => some s⟩, "proj-1", true, true,
         true, true⟩
        GlobalIdeaState.default (some "u1") (some 3) false).merges ≤ 1 ∧
     (workflow_execute
        (fun _ => ⟨false, some [("state", PyValue.pstr "completed"),
                               ("follow_up_question", PyValue.pstr "next?")]⟩)
        ⟨⟨fun u => some ⟨"id-1", u⟩, fun s => some s⟩, "proj-1", true, true,
         true, true⟩
        GlobalIdeaState.default (some "u1") (some 3) false).chained_invokes ≤ 1 ∧
     (∀ p ∈ (workflow_execute
        (fun _ => ⟨false, some [("state", PyValue.pstr "completed"),
                               ("follow_up_question", PyValue.pstr "next?")]⟩)
        ⟨⟨fun u => some ⟨"id-1", u⟩, fun s => some s⟩, "proj-1", true, true,
         true, true⟩
        GlobalIdeaState.default (some "u1") (some 3) false).responses,
       p.2 ≤ 3 + 1) ∧
     (∀ p ∈ (workflow_execute
        (fun _ => ⟨false, some [("state", PyValue.pstr "completed"),
                               ("follow_up_question", PyValue.pstr "next?")]⟩)
        ⟨⟨fun u => some ⟨"id-1", u⟩, fun s => some s⟩, "proj-1", true, true,
         true, true⟩
        GlobalIdeaState.default (some "u1") (some 3) false).saved,
       p.2 ≤ 3 + 1)) :=
  ⟨⟨by decide, by decide⟩,
   single_turn_advances_at_most_one_stage
     (fun _ => ⟨false, some [("state", PyValue.pstr "completed"),
                             ("follow_up_question", PyValue.pstr "next?")]⟩)
     ⟨⟨fun u => some ⟨"id-1", u⟩, fun s => some s⟩, "proj-1", true, true,
      true, true⟩
     GlobalIdeaState.default (some "u1") 3 false (by decide) (by decide)⟩

end SprintPlanner
